import Mathlib

/-!
Verification of the edge-controller runtime orchestrator of
bunchc/model-train-control-system (Python).

The definitions below are a shallow embedding of the Python sources under
src/edge-controllers/pi-template/app/: the hardware driver
(dc_motor_hat.py), the command executor and speed ramp (main.py,
controllers.py), the HTTP registry client (api/client.py), the
configuration orchestrator (config/manager.py, config/loader.py) and the
MQTT status publisher (mqtt_client.py).  External effects (HTTP responses,
broker results, file I/O outcomes, exceptions raised by libraries) are
passed in as explicit parameters; Python dictionaries that are only
inspected for key presence are modelled as association lists of strings.
-/

/-! ## Commands (JSON payloads handed to the command handler)

A command payload is a JSON object with optional keys action, speed and
direction.  A key that is absent, or present with JSON null (both make
dict.get return None in the Python code), is modelled as none.  The
direction value may be a string or an integer (legacy form).
-/

/-- Direction parameter of a command: either a string such as FORWARD, or a
legacy integer 1 or 0. -/
inductive DirParam
  | str (s : String)
  | int (n : Int)
deriving Repr, DecidableEq

/-- A command payload: optional action, optional speed, optional direction. -/
structure Cmd where
  action : Option String
  speed : Option Int
  direction : Option DirParam
deriving Repr, DecidableEq

/-- Embedding of normalize_direction (main.py, _execute_hardware_command):
None defaults to 1 (forward); a string is 1 exactly when it upper-cases to
FORWARD, else 0; an integer is passed through. -/
def normalize_direction : Option DirParam → Int
  | none => 1
  | some (DirParam.str s) => if s.toUpper = "FORWARD" then 1 else 0
  | some (DirParam.int n) => n

/-! ## DC motor driver (dc_motor_hat.py, class DCMotorHatController)

The driver state is the pair of recorded attributes current_speed and
current_direction.  Each speed-carrying operation also returns the speed
percentage that reaches the PWM hardware (the value of the local variable
speed after the clamp in set_speed, from which the 12-bit duty cycle
pwm_value = int(speed / 100.0 * 4095) is computed).
-/

/-- Driver state: the recorded current_speed and current_direction
attributes of DCMotorHatController. -/
structure MotorState where
  current_speed : Int
  current_direction : Int
deriving Repr, DecidableEq

namespace DCMotorHatController

/-- Embedding of the clamp in set_speed (dc_motor_hat.py line 405):
speed = max(0, min(100, speed)). -/
def clamp_speed (speed : Int) : Int := max 0 (min 100 speed)

/-- Embedding of DCMotorHatController.set_speed: clamps the argument, writes
the corresponding PWM duty to the hardware and records current_speed.
Returns the new state together with the clamped speed percentage that was
applied to the hardware. -/
def set_speed (st : MotorState) (speed : Int) : MotorState × Int :=
  let s := clamp_speed speed
  ({ st with current_speed := s }, s)

/-- Embedding of DCMotorHatController.set_direction: direction 1 selects
forward, anything else selects reverse. -/
def set_direction (st : MotorState) (direction : Int) : MotorState :=
  if direction = 1 then { st with current_direction := 1 }
  else { st with current_direction := 0 }

/-- Embedding of DCMotorHatController.start: set_direction then set_speed. -/
def start (st : MotorState) (speed direction : Int) : MotorState × Int :=
  set_speed (set_direction st direction) speed

/-- Embedding of DCMotorHatController.stop: writes PWM duty 0 and records
current_speed = 0.  The speed percentage reaching the hardware is 0. -/
def stop (st : MotorState) : MotorState × Int :=
  ({ st with current_speed := 0 }, 0)

end DCMotorHatController

/-! ## Hardware command execution (main.py, _execute_hardware_command)

The function returns the driver state after the command together with the
list of speed percentages applied to the hardware, in order.
-/

/-- Normalization at the top of _execute_hardware_command: a payload with
no action but a speed key is treated as a setSpeed command. -/
def effectiveAction (cmd : Cmd) : Option String :=
  match cmd.action with
  | none => if cmd.speed.isSome then some "setSpeed" else none
  | some a => some a

/-- Embedding of EdgeControllerApp._execute_hardware_command.  The action is
taken from the payload, a bare speed key with no action being normalized to
setSpeed; the routing then mirrors the if/elif chain of the source.
Unknown actions touch no hardware. -/
def executeHardwareCommand (hw : MotorState) (cmd : Cmd) : MotorState × List Int :=
  let action := effectiveAction cmd
  if action = some "start" then
    let speed := cmd.speed.getD 50
    let direction := normalize_direction cmd.direction
    let r := DCMotorHatController.start hw speed direction
    (r.1, [r.2])
  else if action = some "stop" then
    let r := DCMotorHatController.stop hw
    (r.1, [r.2])
  else if action = some "setSpeed" then
    let speed := cmd.speed.getD 50
    match cmd.direction with
    | some d =>
      let st1 := DCMotorHatController.set_direction hw (normalize_direction (some d))
      let r := DCMotorHatController.set_speed st1 speed
      (r.1, [r.2])
    | none =>
      let r := DCMotorHatController.set_speed hw speed
      (r.1, [r.2])
  else if action = some "setDirection" then
    (DCMotorHatController.set_direction hw (normalize_direction cmd.direction), [])
  else
    (hw, [])

/-! ## Speed ramp steps applied to the hardware (main.py, _handle_speed_command)

The ramp computes total_steps = abs(target - current), step_direction from
the sign of the difference, and on step k (1-based) sets the hardware speed
to current + k * step_direction via driver.set_speed.
-/

/-- The sequence of new_speed values computed by the ramp loop of
_handle_speed_command (and of _ramp_to_speed in controllers.py), for
steps 1 .. total_steps; empty when target equals current. -/
def rampTargets (current target : Int) : List Int :=
  if target - current = 0 then []
  else
    let total_steps := (target - current).natAbs
    let step_direction : Int := if target - current > 0 then 1 else -1
    (List.range total_steps).map (fun k => current + ((k : Int) + 1) * step_direction)

/-- Applies driver.set_speed for each ramp step value in order, collecting
the clamped speed percentages that reach the hardware. -/
def rampApply (hw : MotorState) : List Int → MotorState × List Int
  | [] => (hw, [])
  | ns :: rest =>
    let r := DCMotorHatController.set_speed hw ns
    let t := rampApply r.1 rest
    (t.1, r.2 :: t.2)

/-- Hardware effect of the speed-ramp loop of _handle_speed_command: the
driver state after the ramp and the applied speed percentages, where
current is the train_status speed at entry and target the commanded speed. -/
def runRampHardware (hw : MotorState) (current target : Int) : MotorState × List Int :=
  rampApply hw (rampTargets current target)

/-! ## Ramp task lifecycle (main.py _handle_command, controllers.py SpeedRampManager)

A ramp task is identified by an id and carries the done flag that the
Python code queries before cancelling.  Handling a command emits an ordered
list of scheduler events: cancellation of the previous task, scheduling of
the new ramp coroutine, or direct synchronous execution of the command.
-/

/-- An asyncio ramp task handle: identifier plus its done() flag. -/
structure RampTask where
  tid : Nat
  done : Bool
deriving Repr, DecidableEq

/-- Scheduler events emitted while handling a command. -/
inductive RampEvent
  | cancel (tid : Nat)
  | schedule (tid : Nat)
  | execDirect
deriving Repr, DecidableEq

/-- Embedding of EdgeControllerApp._handle_command (main.py lines 263-311)
restricted to its scheduling behaviour.  The state is the speed_task
attribute; newTid identifies the freshly scheduled ramp coroutine.  For a
setSpeed action, or a bare speed key with no action, carrying a speed
value: any previous task that is not done is cancelled first, then the new
ramp is scheduled and becomes the tracked task.  Every other command is
executed directly. -/
def handle_command (speed_task : Option RampTask) (cmd : Cmd) (newTid : Nat) :
    Option RampTask × List RampEvent :=
  if cmd.action = some "setSpeed" ∨ (cmd.speed.isSome ∧ cmd.action = none) then
    match cmd.speed with
    | some _ =>
      let cancels : List RampEvent :=
        match speed_task with
        | some t => if t.done = false then [RampEvent.cancel t.tid] else []
        | none => []
      (some ⟨newTid, false⟩, cancels ++ [RampEvent.schedule newTid])
    | none => (speed_task, [RampEvent.execDirect])
  else
    (speed_task, [RampEvent.execDirect])

/-- Embedding of SpeedRampManager.start_ramp (controllers.py lines 111-117):
cancel the tracked task unless it is done, then create the new ramp task
and track it. -/
def SpeedRampManager.start_ramp (task : Option RampTask) (newTid : Nat) :
    Option RampTask × List RampEvent :=
  let cancels : List RampEvent :=
    match task with
    | some t => if t.done = false then [RampEvent.cancel t.tid] else []
    | none => []
  (some ⟨newTid, false⟩, cancels ++ [RampEvent.schedule newTid])

/-! ## Ramp execution and cancellation (controllers.py _ramp_to_speed,
main.py _handle_speed_command)

Both coroutines ramp train_status speed from current to target in unit
steps over 3 seconds, publishing a status after each step, and sleep
between steps.  Cancellation is cooperative: asyncio delivers CancelledError
at the await inside the loop, i.e. at the sleep following some step k with
1 <= k < total_steps (there is no sleep after the last step).  We model the
cancellation point as an optional step index k; a value outside that range
means the cancellation was never delivered inside the loop and the ramp
runs to completion.

The two coroutines differ in their exception handler:
  * _ramp_to_speed has an except clause for asyncio.CancelledError that
    publishes the current status once more and re-raises;
  * _handle_speed_command has an except clause for Exception only.  In
    Python 3.8+ asyncio.CancelledError derives from BaseException, not
    Exception, so that handler does not run on cancellation and no further
    status is published.
The Python exception hierarchy fact is recorded by matchesExceptException.
-/

/-- The Python exceptions relevant to the ramp handlers. -/
inductive PyExc
  | cancelledError
  | otherError
deriving Repr, DecidableEq

/-- Whether a clause catching Exception matches the given exception.  In
Python 3.8+ asyncio.CancelledError derives from BaseException directly, so
it is not matched. -/
def matchesExceptException : PyExc → Bool
  | PyExc.cancelledError => false
  | PyExc.otherError => true

/-- Result of running a ramp coroutine: the statuses published from inside
the loop body (one per executed step, carrying the train_status speed), the
statuses published from inside an except handler, the train_status speed at
exit, and the exception leaving the coroutine, if any. -/
structure RampRun where
  loopPubs : List Int
  handlerPubs : List Int
  finalSpeed : Int
  raised : Option PyExc
deriving Repr, DecidableEq

/-- Whether a cancellation point k is an actual suspension point of the
ramp loop: the sleep after step k exists only for 1 <= k < total_steps. -/
def cancelInsideLoop (total_steps : Nat) : Option Nat → Bool
  | some k => decide (1 ≤ k ∧ k < total_steps)
  | none => false

/-- Embedding of _ramp_to_speed (controllers.py lines 147-193).  current is
the train_status speed at entry; cancelAt the cancellation point.  On
cancellation at step k the CancelledError handler publishes the reached
speed once more and re-raises. -/
def ramp_to_speed (current target : Int) (cancelAt : Option Nat) : RampRun :=
  if target - current = 0 then ⟨[], [], current, none⟩
  else
    let total_steps := (target - current).natAbs
    let step_direction : Int := if target - current > 0 then 1 else -1
    match cancelAt with
    | some k =>
      if 1 ≤ k ∧ k < total_steps then
        let reached := current + (k : Int) * step_direction
        ⟨(List.range k).map (fun i => current + ((i : Int) + 1) * step_direction),
         [reached], reached, some PyExc.cancelledError⟩
      else
        ⟨rampTargets current target, [], target, none⟩
    | none => ⟨rampTargets current target, [], target, none⟩

/-- Embedding of _handle_speed_command (main.py lines 313-366), same loop
as ramp_to_speed but with an except clause for Exception only: on
cooperative cancellation at step k the handler does not match
CancelledError (matchesExceptException is false for it), so no further
status is published and the CancelledError leaves the coroutine. -/
def handle_speed_command (current target : Int) (cancelAt : Option Nat) : RampRun :=
  if target - current = 0 then ⟨[], [], current, none⟩
  else
    let total_steps := (target - current).natAbs
    let step_direction : Int := if target - current > 0 then 1 else -1
    match cancelAt with
    | some k =>
      if 1 ≤ k ∧ k < total_steps then
        let reached := current + (k : Int) * step_direction
        let handlerRuns := matchesExceptException PyExc.cancelledError
        ⟨(List.range k).map (fun i => current + ((i : Int) + 1) * step_direction),
         if handlerRuns then [reached] else [],
         reached,
         some PyExc.cancelledError⟩
      else
        ⟨rampTargets current target, [], target, none⟩
    | none => ⟨rampTargets current target, [], target, none⟩

/-- Scenario used by the spec: ramp A is started, cancelled cooperatively at
step k, and ramp B is then started from the speed A reached (asyncio
delivers the cancellation of A, and with it the publishes of the handler of
A, before the freshly created task B first runs).  The result is the
concatenated list of all statuses published, using the _ramp_to_speed
implementation for both ramps. -/
def twoRampScenario (current targetA : Int) (k : Nat) (targetB : Int) : List Int :=
  let runA := ramp_to_speed current targetA (some k)
  let runB := ramp_to_speed runA.finalSpeed targetB none
  (runA.loopPubs ++ runA.handlerPubs) ++ (runB.loopPubs ++ runB.handlerPubs)

/-! ## HTTP registry client (api/client.py, class CentralAPIClient)

HTTP interactions are modelled by passing the response of each request (or
the fact that the requests library raised a transport error) as a
parameter.  All transport errors raised by requests derive from
RequestException and are represented by a single constructor.
-/

/-- Outcome of one HTTP request issued through the requests library: a
response with a status code, or a raised transport error (RequestException,
Timeout, ConnectionError). -/
inductive HttpAttempt
  | status (code : Int)
  | transportError
deriving Repr, DecidableEq

/-- Embedding of the retry loop of CentralAPIClient.check_accessibility
(api/client.py lines 154-203).  responses gives the outcome of each GET by
attempt index (0-based, starting at start); the fuel is the number of
attempts still allowed.  Returns the result, the number of GET attempts
performed, and the list of inter-attempt sleeps (each of retry_delay
seconds, slept whenever attempt < max_retries - 1). -/
def checkAccessLoop (responses : Nat → HttpAttempt) (retry_delay : Nat) :
    Nat → Nat → Bool × Nat × List Nat
  | _, 0 => (false, 0, [])
  | start, fuel + 1 =>
    let continue_ : Bool × Nat × List Nat :=
      if fuel = 0 then (false, 1, [])
      else
        let r := checkAccessLoop responses retry_delay (start + 1) fuel
        (r.1, r.2.1 + 1, retry_delay :: r.2.2)
    match responses start with
    | HttpAttempt.status code => if code = 200 then (true, 1, []) else continue_
    | HttpAttempt.transportError => continue_

/-- Embedding of CentralAPIClient.check_accessibility: up to max_retries GET
attempts on the ping endpoint, returning True on the first response whose
status code equals 200 (HTTP_OK), catching every transport error, sleeping
retry_delay seconds between attempts, and returning False when all
attempts are exhausted.  The second and third components are the number of
attempts made and the sleeps performed. -/
def check_accessibility (max_retries retry_delay : Nat) (responses : Nat → HttpAttempt) :
    Bool × Nat × List Nat :=
  checkAccessLoop responses retry_delay 0 max_retries

/-! ### Runtime config dictionaries

The runtime config is a JSON/YAML object whose values are only ever tested
for key presence (or copied around) by the code under verification, so a
dictionary is modelled as an association list from keys to opaque string
values; nested objects such as mqtt_broker are represented by their key
only.  An empty list models an empty dict, which is falsy in Python.
-/

/-- A Python dict as used for configs: keys in insertion order. -/
abbrev CfgDict := List (String × String)

/-- Key membership, Python in operator on a dict. -/
def hasKey (d : CfgDict) (k : String) : Bool :=
  match d with
  | [] => false
  | p :: rest => if p.1 = k then true else hasKey rest k

/-- Python dict truthiness: a dict is truthy exactly when non-empty. -/
def dictTruthy (d : CfgDict) : Bool :=
  match d with
  | [] => false
  | _ :: _ => true

/-- Python dict assignment d[k] = v: replaces the value in place when the
key exists, otherwise appends the new entry. -/
def setKey (d : CfgDict) (k v : String) : CfgDict :=
  match d with
  | [] => [(k, v)]
  | p :: rest => if p.1 = k then (k, v) :: rest else p :: setKey rest k v

/-- Body of an HTTP response as seen by response.json(): a JSON object, some
other valid JSON value, or undecodable content (json() raises ValueError). -/
inductive RespBody
  | jsonDict (d : CfgDict)
  | jsonOther
  | invalidJson
deriving Repr, DecidableEq

/-- Outcome of the single GET of download_runtime_config. -/
inductive DownloadResp
  | response (code : Int) (body : RespBody)
  | transportError
deriving Repr, DecidableEq

/-- Embedding of CentralAPIClient.download_runtime_config (api/client.py
lines 410-474).  A 404 returns None; response.raise_for_status() raises
HTTPError (a RequestException, caught, None) exactly for status codes in
400..599; a transport error or a ValueError from response.json() is caught
and yields None; a decoded body that is not a dict yields None; otherwise
the uuid is written into the dict and the dict is returned. -/
def download_runtime_config (controller_uuid : String) (resp : DownloadResp) :
    Option CfgDict :=
  match resp with
  | DownloadResp.transportError => none
  | DownloadResp.response code body =>
    if code = 404 then none
    else if 400 ≤ code ∧ code < 600 then none
    else
      match body with
      | RespBody.jsonDict d => some (setKey d "uuid" controller_uuid)
      | RespBody.jsonOther => none
      | RespBody.invalidJson => none

/-! ### Heartbeat (api/client.py, send_heartbeat)

The telemetry arguments are each optional; the payload includes exactly the
arguments that are not None, in the fixed order of the source.  The
returned Python value is True for a 200 response and False for any other
status code; when the POST raises a transport error the except clause only
logs and the function falls off its end, returning None (the return False
in the else clause of the try statement is unreachable, since every
non-raising path of the try body returns).
-/

/-- A JSON value appearing in the heartbeat payload. -/
inductive JVal
  | s (v : String)
  | i (v : Int)
deriving Repr, DecidableEq

/-- The telemetry arguments of send_heartbeat. -/
structure HeartbeatArgs where
  config_hash : Option String
  version : Option String
  platform : Option String
  python_version : Option String
  memory_mb : Option Int
  cpu_count : Option Int
deriving Repr, DecidableEq

/-- The payload built by send_heartbeat: only non-None fields, in source
order. -/
def heartbeatPayload (a : HeartbeatArgs) : List (String × JVal) :=
  (match a.config_hash with | some v => [("config_hash", JVal.s v)] | none => []) ++
  (match a.version with | some v => [("version", JVal.s v)] | none => []) ++
  (match a.platform with | some v => [("platform", JVal.s v)] | none => []) ++
  (match a.python_version with | some v => [("python_version", JVal.s v)] | none => []) ++
  (match a.memory_mb with | some v => [("memory_mb", JVal.i v)] | none => []) ++
  (match a.cpu_count with | some v => [("cpu_count", JVal.i v)] | none => [])

/-- The value a Python function call evaluates to: an explicit boolean or
None from falling off the end of the function body. -/
inductive PyRet
  | retTrue
  | retFalse
  | retNone
deriving Repr, DecidableEq

/-- Embedding of CentralAPIClient.send_heartbeat (api/client.py lines
476-560): the returned value and the payload that was posted (empty when
the POST itself raised before a payload mattered; the payload is built
before the POST, so it is reported in both cases). -/
def send_heartbeat (a : HeartbeatArgs) (post : HttpAttempt) :
    PyRet × List (String × JVal) :=
  let payload := heartbeatPayload a
  match post with
  | HttpAttempt.status code =>
    if code = 200 then (PyRet.retTrue, payload)
    else if code = 404 then (PyRet.retFalse, payload)
    else (PyRet.retFalse, payload)
  | HttpAttempt.transportError => (PyRet.retNone, payload)

/-! ## Configuration orchestrator (config/manager.py, class ConfigManager)

The initialize method of ConfigManager combines file I/O (ConfigLoader) and network I/O
(CentralAPIClient).  The environment of one initialize run is captured as a
record of the outcomes of those calls: the cached runtime config returned
by ConfigLoader.load_cached_runtime_config (none models a missing file,
unparseable YAML or a non-dict document, all of which the loader collapses
to None), the accessibility probe, the controller-existence check, the
download result (already in the shape produced by download_runtime_config,
namely None for 404 or any soft failure), the registration result (none
models APIRegistrationError) and whether ConfigLoader.save_runtime_config
succeeds (false models it raising ConfigLoadError).  The download outcome
is used for whichever download call the run performs.
-/

/-- Outcomes of the loader and API calls made during one initialize run. -/
structure ManagerEnv where
  cached : Option CfgDict
  accessible : Bool
  controllerExists : Bool
  downloadResult : Option CfgDict
  registerResult : Option String
  saveOk : Bool
deriving Repr, DecidableEq

/-- Result of the initialize method of ConfigManager: the returned pair (service config,
runtime config or None), or a raised ConfigurationError. -/
inductive InitResult
  | ok (service : CfgDict) (runtime : Option CfgDict)
  | configurationError
deriving Repr, DecidableEq

/-- Embedding of ConfigManager._is_runtime_config_complete (config/manager.py
lines 370-394): both required keys must be present (presence only, values
are not inspected). -/
def is_runtime_config_complete (config : CfgDict) : Bool :=
  hasKey config "train_id" && hasKey config "mqtt_broker"

/-- Embedding of ConfigManager._use_cached_config_fallback (config/manager.py
lines 184-220): load the cached runtime config; if it is truthy return it
with the service config, otherwise raise ConfigurationError. -/
def use_cached_config_fallback (service : CfgDict) (env : ManagerEnv) : InitResult :=
  match env.cached with
  | some cfg =>
    if dictTruthy cfg then InitResult.ok service (some cfg)
    else InitResult.configurationError
  | none => InitResult.configurationError

/-- Embedding of ConfigManager._register_new_controller (config/manager.py
lines 299-368): registration failure raises ConfigurationError; on success
the runtime config is downloaded, and if truthy it is saved and returned,
a ConfigLoadError from the save falling through to the final return of
(service, None); otherwise (service, None) is returned. -/
def register_new_controller (service : CfgDict) (env : ManagerEnv) : InitResult :=
  match env.registerResult with
  | none => InitResult.configurationError
  | some _uuid =>
    match env.downloadResult with
    | some cfg =>
      if dictTruthy cfg then
        if env.saveOk then InitResult.ok service (some cfg)
        else InitResult.ok service none
      else InitResult.ok service none
    | none => InitResult.ok service none

/-- Embedding of ConfigManager._refresh_existing_controller (config/manager.py
lines 222-297).  If the API no longer recognizes the cached uuid, the run
re-registers as a new controller.  Otherwise a fresh config is downloaded:
on a truthy result it is saved and returned, a ConfigLoadError from the
save falling through to the cached-config check; on a failed download the
cached config is returned when complete, else (service, None). -/
def refresh_existing_controller (service : CfgDict) (env : ManagerEnv)
    (cached_config : CfgDict) : InitResult :=
  if env.controllerExists = false then
    register_new_controller service env
  else
    let savedFresh : Option InitResult :=
      match env.downloadResult with
      | some fresh =>
        if dictTruthy fresh then
          if env.saveOk then some (InitResult.ok service (some fresh)) else none
        else none
      | none => none
    match savedFresh with
    | some r => r
    | none =>
      if is_runtime_config_complete cached_config then
        InitResult.ok service (some cached_config)
      else
        InitResult.ok service none

/-- Embedding of the initialize method of ConfigManager (config/manager.py lines 113-182)
after the service config has been loaded (a ConfigLoadError there raises
ConfigurationError before anything else and is outside these claims).  If
the accessibility probe fails the run falls back to the cache; online, a
truthy cached config containing a uuid leads to the refresh path and
anything else to new registration. -/
def ConfigManager.initializeRun (service : CfgDict) (env : ManagerEnv) : InitResult :=
  if env.accessible = false then
    use_cached_config_fallback service env
  else
    match env.cached with
    | some cached_config =>
      if dictTruthy cached_config && hasKey cached_config "uuid" then
        refresh_existing_controller service env cached_config
      else
        register_new_controller service env
    | none => register_new_controller service env

/-! ## MQTT status publishing (mqtt_client.py, publish_status)

publish_status first runs _publish_to_mqtt, whose failures raise
MQTTPublishError (serialization failures and broker-level failures with
distinct reasons), and only if that returned normally and an HTTP fallback
URL is configured runs _push_to_http, which catches every error.  The
outcomes of json.dumps, of the broker publish and of the HTTP POST are
passed in as parameters.
-/

/-- Outcome of json.dumps(status): a payload string, or a raised TypeError
for non-serializable content. -/
inductive SerializeResult
  | ok (payload : String)
  | typeError
deriving Repr, DecidableEq

/-- Outcome of client.publish: the MQTT return code, where 0 is
MQTT_ERR_SUCCESS. -/
inductive BrokerResult
  | rc (code : Int)
deriving Repr, DecidableEq

/-- Reason carried by a raised MQTTPublishError. -/
inductive PublishErrorReason
  | notSerializable
  | brokerFailure (rc : Int)
deriving Repr, DecidableEq

/-- What publish_status does overall: the error propagated to the caller,
if any, and the ordered list of channel actions attempted. -/
inductive ChannelAction
  | mqttPublish
  | httpPost
deriving Repr, DecidableEq

/-- Embedding of MQTTClient._publish_to_mqtt (mqtt_client.py lines 459-499):
serialization raises MQTTPublishError with the not-serializable reason
before any broker interaction; a broker return code other than success
raises MQTTPublishError with the broker reason; otherwise the publish
succeeded. -/
def publish_to_mqtt (ser : SerializeResult) (broker : BrokerResult) :
    Except PublishErrorReason Unit × List ChannelAction :=
  match ser with
  | SerializeResult.typeError => (Except.error PublishErrorReason.notSerializable, [])
  | SerializeResult.ok _ =>
    match broker with
    | BrokerResult.rc code =>
      if code = 0 then (Except.ok (), [ChannelAction.mqttPublish])
      else (Except.error (PublishErrorReason.brokerFailure code), [ChannelAction.mqttPublish])

/-- Embedding of MQTTClient._push_to_http (mqtt_client.py lines 501-542):
the POST result is inspected only for logging; every transport error and
every unexpected error is caught, so the push always returns normally. -/
def push_to_http (post : HttpAttempt) : Except PublishErrorReason Unit :=
  match post with
  | HttpAttempt.status _ => Except.ok ()
  | HttpAttempt.transportError => Except.ok ()

/-- Embedding of MQTTClient.publish_status (mqtt_client.py lines 412-457):
_publish_to_mqtt runs first and its MQTTPublishError propagates to the
caller unchanged, skipping the HTTP push; on success the HTTP push runs
exactly when central_api_url is configured, and its result never changes
the outcome. -/
def publish_status (central_api_url : Option String) (ser : SerializeResult)
    (broker : BrokerResult) (post : HttpAttempt) :
    Except PublishErrorReason Unit × List ChannelAction :=
  match publish_to_mqtt ser broker with
  | (Except.error e, acts) => (Except.error e, acts)
  | (Except.ok (), acts) =>
    match central_api_url with
    | some _ =>
      match push_to_http post with
      | Except.ok () => (Except.ok (), acts ++ [ChannelAction.httpPost])
      | Except.error e => (Except.error e, acts ++ [ChannelAction.httpPost])
    | none => (Except.ok (), acts)

/-! ## Helper lemmas -/

/-- The clamp of set_speed always lands in 0..100. -/
theorem clamp_speed_bounds (s : Int) :
    0 ≤ DCMotorHatController.clamp_speed s ∧ DCMotorHatController.clamp_speed s ≤ 100 := by
  unfold DCMotorHatController.clamp_speed
  refine ⟨le_max_left 0 _, max_le (by norm_num) (min_le_left 100 s)⟩

/-- The hardware-facing speed returned by set_speed is the clamped value. -/
theorem set_speed_applied (st : MotorState) (v : Int) :
    (DCMotorHatController.set_speed st v).2 = DCMotorHatController.clamp_speed v := rfl

/-- The speed recorded by set_speed is the clamped value. -/
theorem set_speed_recorded (st : MotorState) (v : Int) :
    (DCMotorHatController.set_speed st v).1.current_speed =
      DCMotorHatController.clamp_speed v := rfl

/-- Every speed percentage applied by a sequence of ramp steps is in 0..100. -/
theorem rampApply_speeds_bounded (l : List Int) :
    ∀ (hw : MotorState), ∀ s ∈ (rampApply hw l).2, 0 ≤ s ∧ s ≤ 100 := by
  induction l with
  | nil =>
    intro hw s hs
    simp [rampApply] at hs
  | cons ns rest ih =>
    intro hw s hs
    simp only [rampApply, List.mem_cons] at hs
    rcases hs with h | h
    · rw [h, set_speed_applied]
      exact clamp_speed_bounds ns
    · exact ih _ s h

/-- Every speed percentage applied by _execute_hardware_command is in 0..100. -/
theorem executeHardwareCommand_speeds_bounded (hw : MotorState) (cmd : Cmd) :
    ∀ s ∈ (executeHardwareCommand hw cmd).2, 0 ≤ s ∧ s ≤ 100 := by
  intro s hs
  simp only [executeHardwareCommand, DCMotorHatController.start,
    DCMotorHatController.stop] at hs
  repeat' split at hs
  all_goals simp only [List.mem_singleton, List.not_mem_nil] at hs
  all_goals
    first
    | (rw [hs, set_speed_applied]
       exact clamp_speed_bounds _)
    | (rw [hs]
       norm_num)

/-! ## Claim theorems -/

/-- C1: for every command carrying a speed (action start, action setSpeed,
or a bare speed field), and for every ramp step, the speed percentage
applied to the hardware is clamped to 0..100 even when the commanded speed
is outside that range, and after set_speed or start the recorded
current_speed of the driver is in 0..100. -/
theorem speed_clamped_before_hardware :
    ∀ (hw : MotorState) (cmd : Cmd) (current target speed direction : Int),
      (∀ s ∈ (executeHardwareCommand hw cmd).2, 0 ≤ s ∧ s ≤ 100) ∧
      (∀ s ∈ (runRampHardware hw current target).2, 0 ≤ s ∧ s ≤ 100) ∧
      (0 ≤ (DCMotorHatController.set_speed hw speed).1.current_speed ∧
        (DCMotorHatController.set_speed hw speed).1.current_speed ≤ 100) ∧
      (0 ≤ (DCMotorHatController.start hw speed direction).1.current_speed ∧
        (DCMotorHatController.start hw speed direction).1.current_speed ≤ 100) := by
  intro hw cmd current target speed direction
  refine ⟨executeHardwareCommand_speeds_bounded hw cmd,
    rampApply_speeds_bounded _ hw,
    ?_, ?_⟩
  · rw [set_speed_recorded]
    exact clamp_speed_bounds speed
  · show 0 ≤ (DCMotorHatController.set_speed _ speed).1.current_speed ∧ _
    rw [set_speed_recorded]
    exact clamp_speed_bounds speed

/-- C1 witness: a setSpeed command asking for 250 reaches the hardware as
100, and the ramp toward 250 from 0 likewise never exceeds 100. -/
theorem speed_clamped_before_hardware_witness :
    (0 ≤ (100 : Int) ∧ (100 : Int) ≤ 100) ∧
    (0 ≤ (DCMotorHatController.set_speed ⟨0, 1⟩ 250).1.current_speed ∧
      (DCMotorHatController.set_speed ⟨0, 1⟩ 250).1.current_speed ≤ 100) :=
  ⟨(speed_clamped_before_hardware ⟨0, 1⟩ ⟨some "setSpeed", some 250, none⟩
      0 250 250 1).1 100 (by decide),
   (speed_clamped_before_hardware ⟨0, 1⟩ ⟨some "setSpeed", some 250, none⟩
      0 250 250 1).2.2.1⟩

/-- C2: whenever a setSpeed command (or bare speed command) carrying a
speed value arrives while a ramp task is in flight (tracked and not done),
both the MQTT command handler and the HTTP SpeedRampManager cancel the
in-flight task first and only then schedule the new ramp, which becomes
the single tracked task: cancel-then-replace, no queueing. -/
theorem ramp_cancel_then_replace :
    ∀ (t : RampTask) (cmd : Cmd) (v : Int) (newTid : Nat),
      t.done = false →
      (cmd.action = some "setSpeed" ∨ (cmd.speed.isSome ∧ cmd.action = none)) →
      cmd.speed = some v →
      handle_command (some t) cmd newTid =
        (some ⟨newTid, false⟩, [RampEvent.cancel t.tid, RampEvent.schedule newTid]) ∧
      SpeedRampManager.start_ramp (some t) newTid =
        (some ⟨newTid, false⟩, [RampEvent.cancel t.tid, RampEvent.schedule newTid]) := by
  intro t cmd v newTid hdone hcond hspeed
  constructor
  · unfold handle_command
    rw [if_pos hcond, hspeed]
    simp [hdone]
  · unfold SpeedRampManager.start_ramp
    simp [hdone]

/-- C2 witness: a concrete setSpeed command cancels task 0 and schedules
task 1. -/
theorem ramp_cancel_then_replace_witness :
    handle_command (some ⟨0, false⟩) ⟨some "setSpeed", some 30, none⟩ 1 =
      (some ⟨1, false⟩, [RampEvent.cancel 0, RampEvent.schedule 1]) :=
  (ramp_cancel_then_replace ⟨0, false⟩ ⟨some "setSpeed", some 30, none⟩ 30 1
    rfl (Or.inl rfl) rfl).1

/-- C3 (code-bug evidence): the two ramp implementations diverge on
cancellation.  Ramping from speed 0 toward 3 and delivering the cooperative
cancellation at the sleep after step 1, the HTTP-path coroutine
_ramp_to_speed catches CancelledError and publishes one final status with
the reached speed 1, but the MQTT-path coroutine _handle_speed_command
catches only Exception, which does not match CancelledError, so it
publishes nothing on cancellation and the claimed terminal status update
never happens on that path.  The two-ramp scenario (A toward 10 cancelled
after step 2, then B toward 5) on the _ramp_to_speed implementation does
end with exactly one final status equal to the target of B. -/
theorem ramp_cancellation_final_status_divergence :
    handle_speed_command 0 3 (some 1) =
      { loopPubs := [1], handlerPubs := [], finalSpeed := 1,
        raised := some PyExc.cancelledError } ∧
    ramp_to_speed 0 3 (some 1) =
      { loopPubs := [1], handlerPubs := [1], finalSpeed := 1,
        raised := some PyExc.cancelledError } ∧
    matchesExceptException PyExc.cancelledError = false ∧
    twoRampScenario 0 10 2 5 = [1, 2, 2, 3, 4, 5] ∧
    (twoRampScenario 0 10 2 5).getLast? = some 5 := by
  refine ⟨?_, ?_, rfl, ?_, ?_⟩ <;> decide

/-- C4 (code-bug evidence): send_heartbeat returns True on 200 and False on
404 and other statuses, with a payload containing exactly the non-None
telemetry fields, but on a transport error the except clause only logs and
the function falls off its end, evaluating to None rather than the
documented False. -/
theorem send_heartbeat_transport_error_returns_none :
    (send_heartbeat ⟨none, some "1.0.0", none, none, some 1024, none⟩
        HttpAttempt.transportError).1 = PyRet.retNone ∧
    PyRet.retNone ≠ PyRet.retFalse ∧
    send_heartbeat ⟨none, some "1.0.0", none, none, some 1024, none⟩
        (HttpAttempt.status 200) =
      (PyRet.retTrue, [("version", JVal.s "1.0.0"), ("memory_mb", JVal.i 1024)]) ∧
    (send_heartbeat ⟨none, some "1.0.0", none, none, some 1024, none⟩
        (HttpAttempt.status 404)).1 = PyRet.retFalse ∧
    (send_heartbeat ⟨none, some "1.0.0", none, none, some 1024, none⟩
        (HttpAttempt.status 500)).1 = PyRet.retFalse := by
  refine ⟨rfl, by decide, ?_, ?_, ?_⟩ <;> rfl

/-- C5: online, with a truthy cached config whose uuid the registry still
recognizes, a failed download makes initialize return the cached config
exactly when it is complete (has both the train_id and mqtt_broker keys)
and (service, None) otherwise; in particular a cached config missing
train_id is never returned. -/
theorem cached_fallback_requires_completeness :
    ∀ (service cached : CfgDict) (env : ManagerEnv),
      env.accessible = true →
      env.cached = some cached →
      dictTruthy cached = true →
      hasKey cached "uuid" = true →
      env.controllerExists = true →
      env.downloadResult = none →
      (ConfigManager.initializeRun service env =
        if is_runtime_config_complete cached then InitResult.ok service (some cached)
        else InitResult.ok service none) ∧
      (hasKey cached "train_id" = false →
        ConfigManager.initializeRun service env = InitResult.ok service none) := by
  intro service cached env hacc hcached htruthy huuid hexists hdl
  have hmain : ConfigManager.initializeRun service env =
      if is_runtime_config_complete cached then InitResult.ok service (some cached)
      else InitResult.ok service none := by
    unfold ConfigManager.initializeRun refresh_existing_controller
    rw [hacc, hcached]
    simp [htruthy, huuid, hexists, hdl]
  refine ⟨hmain, fun hno => ?_⟩
  rw [hmain]
  have hincomplete : is_runtime_config_complete cached = false := by
    unfold is_runtime_config_complete
    rw [hno]
    rfl
  rw [hincomplete]
  simp

/-- C5 witness: a cached config holding only a uuid is incomplete, so after
a failed download initialize returns (service, None). -/
theorem cached_fallback_requires_completeness_witness :
    ConfigManager.initializeRun [("central_api_host", "localhost")]
        ⟨some [("uuid", "u1")], true, true, none, some "u1", true⟩ =
      InitResult.ok [("central_api_host", "localhost")] none :=
  (cached_fallback_requires_completeness [("central_api_host", "localhost")]
    [("uuid", "u1")] ⟨some [("uuid", "u1")], true, true, none, some "u1", true⟩
    rfl rfl rfl (by decide) rfl rfl).2 (by decide)

/-- C7: when the accessibility probe fails, initialize returns the cached
runtime config together with the service config whenever the cache loads
as a non-empty dict, and raises ConfigurationError when the cache is
missing (or loads as an empty dict). -/
theorem offline_fallback_behaviour :
    ∀ (service : CfgDict) (env : ManagerEnv),
      env.accessible = false →
      (∀ cfg, env.cached = some cfg → dictTruthy cfg = true →
        ConfigManager.initializeRun service env = InitResult.ok service (some cfg)) ∧
      (env.cached = none →
        ConfigManager.initializeRun service env = InitResult.configurationError) ∧
      (env.cached = some [] →
        ConfigManager.initializeRun service env = InitResult.configurationError) := by
  intro service env hacc
  refine ⟨?_, ?_, ?_⟩
  · intro cfg hc ht
    unfold ConfigManager.initializeRun use_cached_config_fallback
    rw [hacc, hc]
    simp [ht]
  · intro hc
    unfold ConfigManager.initializeRun use_cached_config_fallback
    rw [hacc, hc]
    simp
  · intro hc
    unfold ConfigManager.initializeRun use_cached_config_fallback
    rw [hacc, hc]
    simp [dictTruthy]

/-- C7 witness: offline with a one-key cached config, initialize returns
it; offline with no cache, initialize raises ConfigurationError. -/
theorem offline_fallback_behaviour_witness :
    ConfigManager.initializeRun [("central_api_host", "localhost")]
        ⟨some [("train_id", "t1")], false, false, none, none, true⟩ =
      InitResult.ok [("central_api_host", "localhost")] (some [("train_id", "t1")]) ∧
    ConfigManager.initializeRun [("central_api_host", "localhost")]
        ⟨none, false, false, none, none, true⟩ = InitResult.configurationError :=
  ⟨(offline_fallback_behaviour [("central_api_host", "localhost")]
      ⟨some [("train_id", "t1")], false, false, none, none, true⟩ rfl).1
      [("train_id", "t1")] rfl rfl,
   (offline_fallback_behaviour [("central_api_host", "localhost")]
      ⟨none, false, false, none, none, true⟩ rfl).2.1 rfl⟩

/-- C10: when the download succeeds but saving the fresh config raises
ConfigLoadError, initialize does not return the fresh config: on the
refresh path it returns the old cached config when complete and
(service, None) otherwise, and on the new-registration path it returns
(service, None). -/
theorem save_failure_discards_fresh_config :
    ∀ (service cached fresh : CfgDict) (env : ManagerEnv) (u : String),
      env.accessible = true →
      env.downloadResult = some fresh →
      dictTruthy fresh = true →
      env.saveOk = false →
      (env.cached = some cached → dictTruthy cached = true →
        hasKey cached "uuid" = true → env.controllerExists = true →
        ConfigManager.initializeRun service env =
          if is_runtime_config_complete cached then InitResult.ok service (some cached)
          else InitResult.ok service none) ∧
      (env.cached = none → env.registerResult = some u →
        ConfigManager.initializeRun service env = InitResult.ok service none) := by
  intro service cached fresh env u hacc hdl htruthy hsave
  constructor
  · intro hc ht huuid hexists
    unfold ConfigManager.initializeRun refresh_existing_controller
    rw [hacc, hc, hdl]
    simp [ht, huuid, hexists, htruthy, hsave]
  · intro hc hreg
    unfold ConfigManager.initializeRun register_new_controller
    rw [hacc, hc, hreg, hdl]
    simp [htruthy, hsave]

/-- C10 witness: with a complete cached config, a fresh download and a
failing save, initialize returns the cached config, not the fresh one. -/
theorem save_failure_discards_fresh_config_witness :
    ConfigManager.initializeRun [("central_api_host", "localhost")]
        ⟨some [("uuid", "u1"), ("train_id", "t1"), ("mqtt_broker", "b")], true, true,
          some [("uuid", "u1"), ("train_id", "t2"), ("mqtt_broker", "b2")], some "u1",
          false⟩ =
      InitResult.ok [("central_api_host", "localhost")]
        (some [("uuid", "u1"), ("train_id", "t1"), ("mqtt_broker", "b")]) := by
  have h := (save_failure_discards_fresh_config [("central_api_host", "localhost")]
    [("uuid", "u1"), ("train_id", "t1"), ("mqtt_broker", "b")]
    [("uuid", "u1"), ("train_id", "t2"), ("mqtt_broker", "b2")]
    ⟨some [("uuid", "u1"), ("train_id", "t1"), ("mqtt_broker", "b")], true, true,
      some [("uuid", "u1"), ("train_id", "t2"), ("mqtt_broker", "b2")], some "u1",
      false⟩ "u1" rfl rfl rfl rfl).1 rfl rfl (by decide) rfl
  rw [h]
  have hc : is_runtime_config_complete
      [("uuid", "u1"), ("train_id", "t1"), ("mqtt_broker", "b")] = true := by decide
  simp [hc]

/-- The retry loop never makes more attempts than its remaining budget. -/
theorem checkAccessLoop_attempts_le (responses : Nat → HttpAttempt) (rd : Nat) :
    ∀ (fuel start : Nat), (checkAccessLoop responses rd start fuel).2.1 ≤ fuel := by
  intro fuel
  induction fuel with
  | zero =>
    intro start
    simp [checkAccessLoop]
  | succ n ih =>
    intro start
    have hrec := ih (start + 1)
    cases hr : responses start with
    | status code =>
      by_cases hc : code = 200
      · simp [checkAccessLoop, hr, hc]
      · by_cases hn : n = 0
        · subst hn
          simp [checkAccessLoop, hr, hc]
        · simp only [checkAccessLoop, hr, hc, hn, if_false, if_neg]
          simp [hc, hn]
          omega
    | transportError =>
      by_cases hn : n = 0
      · subst hn
        simp [checkAccessLoop, hr]
      · simp only [checkAccessLoop, hr]
        simp [hn]
        omega

/-- Every inter-attempt sleep of the retry loop has the fixed length
retry_delay. -/
theorem checkAccessLoop_delays_fixed (responses : Nat → HttpAttempt) (rd : Nat) :
    ∀ (fuel start : Nat), ∀ d ∈ (checkAccessLoop responses rd start fuel).2.2, d = rd := by
  intro fuel
  induction fuel with
  | zero =>
    intro start d hd
    simp [checkAccessLoop] at hd
  | succ n ih =>
    intro start d hd
    have hrec := ih (start + 1)
    cases hr : responses start with
    | status code =>
      by_cases hc : code = 200
      · simp [checkAccessLoop, hr, hc] at hd
      · by_cases hn : n = 0
        · subst hn
          simp [checkAccessLoop, hr, hc] at hd
        · simp [checkAccessLoop, hr, hc, hn] at hd
          rcases hd with h | h
          · exact h
          · exact hrec d h
    | transportError =>
      by_cases hn : n = 0
      · subst hn
        simp [checkAccessLoop, hr] at hd
      · simp [checkAccessLoop, hr, hn] at hd
        rcases hd with h | h
        · exact h
        · exact hrec d h

/-- When the response of the first attempt has status 200 the loop stops
immediately with one attempt and no sleep. -/
theorem checkAccessLoop_first_success (responses : Nat → HttpAttempt) (rd : Nat)
    (start n : Nat) (h : responses start = HttpAttempt.status 200) :
    checkAccessLoop responses rd start (n + 1) = (true, 1, []) := by
  simp [checkAccessLoop, h]


/-- One-step unfolding of the retry loop for a positive budget. -/
theorem checkAccessLoop_succ (responses : Nat → HttpAttempt) (rd start fuel : Nat) :
    checkAccessLoop responses rd start (fuel + 1) =
      match responses start with
      | HttpAttempt.status code =>
        if code = 200 then (true, 1, [])
        else if fuel = 0 then (false, 1, [])
        else
          let r := checkAccessLoop responses rd (start + 1) fuel
          (r.1, r.2.1 + 1, rd :: r.2.2)
      | HttpAttempt.transportError =>
        if fuel = 0 then (false, 1, [])
        else
          let r := checkAccessLoop responses rd (start + 1) fuel
          (r.1, r.2.1 + 1, rd :: r.2.2) := by
  rfl

/-- Against an endpoint that never answers 200, the loop exhausts its whole
budget, returns false, and sleeps between consecutive attempts only. -/
theorem checkAccessLoop_all_fail (responses : Nat → HttpAttempt) (rd : Nat)
    (h : ∀ i, responses i ≠ HttpAttempt.status 200) :
    ∀ (fuel start : Nat),
      checkAccessLoop responses rd start fuel =
        (false, fuel, List.replicate (fuel - 1) rd) := by
  intro fuel
  induction fuel with
  | zero =>
    intro start
    simp [checkAccessLoop]
  | succ n ih =>
    intro start
    rw [checkAccessLoop_succ]
    cases hr : responses start with
    | status code =>
      have hc : ¬code = 200 := by
        intro hcontra
        rw [hcontra] at hr
        exact h start hr
      cases n with
      | zero =>
        simp [hc]
      | succ m =>
        rw [ih (start + 1)]
        simp [hc, List.replicate_succ]
    | transportError =>
      cases n with
      | zero =>
        simp
      | succ m =>
        rw [ih (start + 1)]
        simp [List.replicate_succ]

/-- C6 counterexample: an endpoint answering 204 No Content (a 2xx status)
on every attempt.  The claim says probe returns true on the first attempt
whose status is 2xx, but check_accessibility compares the status to 200
only, so it retries through all three attempts and returns false. -/
theorem check_accessibility_rejects_other_2xx :
    (check_accessibility 3 2 (fun _ => HttpAttempt.status 204)).1 = false ∧
    (check_accessibility 3 2 (fun _ => HttpAttempt.status 204)).2.1 = 3 := by
  constructor <;> rfl

/-- The retry loop returns true at the first attempt answering exactly 200:
if the attempts before index k (relative to start) all answer something
other than 200 and attempt k answers 200, with k inside the budget, the
loop stops after k + 1 attempts and k fixed-length sleeps. -/
theorem checkAccessLoop_first_success_at (responses : Nat → HttpAttempt) (rd : Nat) :
    ∀ (k fuel start : Nat), k < fuel →
      (∀ i, i < k → responses (start + i) ≠ HttpAttempt.status 200) →
      responses (start + k) = HttpAttempt.status 200 →
      checkAccessLoop responses rd start fuel = (true, k + 1, List.replicate k rd) := by
  intro k
  induction k with
  | zero =>
    intro fuel start hk _hfail h200
    cases fuel with
    | zero => omega
    | succ n => exact checkAccessLoop_first_success responses rd start n h200
  | succ m ih =>
    intro fuel start hk hfail h200
    cases fuel with
    | zero => omega
    | succ n =>
      have hne : responses start ≠ HttpAttempt.status 200 := hfail 0 (Nat.succ_pos m)
      have hfail2 : ∀ i, i < m → responses (start + 1 + i) ≠ HttpAttempt.status 200 := by
        intro i hi
        have heq : start + 1 + i = start + (i + 1) := by omega
        rw [heq]
        exact hfail (i + 1) (by omega)
      have h2002 : responses (start + 1 + m) = HttpAttempt.status 200 := by
        have heq : start + 1 + m = start + (m + 1) := by omega
        rw [heq]
        exact h200
      have hrec := ih n (start + 1) (by omega) hfail2 h2002
      rw [checkAccessLoop_succ]
      cases hr : responses start with
      | status code =>
        have hc : ¬code = 200 := by
          intro hcontra
          rw [hcontra] at hr
          exact hne hr
        have hn : ¬n = 0 := by omega
        simp [hc, hn, hrec, List.replicate_succ]
      | transportError =>
        have hn : ¬n = 0 := by omega
        simp [hn, hrec, List.replicate_succ]

/-- C6 (amended): probe makes at most max_retries GET attempts, every
inter-attempt delay is the fixed retry_delay, it returns true on the
first attempt whose status is exactly 200 (other statuses, including other
2xx codes, are retried like failures) -- both when that is the very first
attempt and in general at any attempt k inside the budget preceded by k
non-200 attempts, having then made exactly k + 1 attempts and k sleeps --
it never throws (it is a total function of the responses), and against an
always-failing endpoint with max_retries = 3 it performs exactly 3
attempts and returns false. -/
theorem check_accessibility_retry_contract :
    ∀ (max_retries retry_delay : Nat) (responses : Nat → HttpAttempt),
      (check_accessibility max_retries retry_delay responses).2.1 ≤ max_retries ∧
      (∀ d ∈ (check_accessibility max_retries retry_delay responses).2.2,
        d = retry_delay) ∧
      (responses 0 = HttpAttempt.status 200 → 1 ≤ max_retries →
        check_accessibility max_retries retry_delay responses = (true, 1, [])) ∧
      (∀ k, k < max_retries →
        (∀ i, i < k → responses i ≠ HttpAttempt.status 200) →
        responses k = HttpAttempt.status 200 →
        check_accessibility max_retries retry_delay responses =
          (true, k + 1, List.replicate k retry_delay)) ∧
      ((∀ i, responses i ≠ HttpAttempt.status 200) →
        check_accessibility max_retries retry_delay responses =
          (false, max_retries, List.replicate (max_retries - 1) retry_delay)) ∧
      check_accessibility 3 retry_delay (fun _ => HttpAttempt.transportError) =
        (false, 3, List.replicate 2 retry_delay) := by
  intro max_retries retry_delay responses
  refine ⟨checkAccessLoop_attempts_le responses retry_delay max_retries 0,
    checkAccessLoop_delays_fixed responses retry_delay max_retries 0,
    ?_, ?_, ?_, ?_⟩
  · intro h200 hpos
    cases max_retries with
    | zero => omega
    | succ n => exact checkAccessLoop_first_success responses retry_delay 0 n h200
  · intro k hk hfail h200
    have hfail0 : ∀ i, i < k → responses (0 + i) ≠ HttpAttempt.status 200 := by
      intro i hi
      rw [Nat.zero_add]
      exact hfail i hi
    have h2000 : responses (0 + k) = HttpAttempt.status 200 := by
      rw [Nat.zero_add]
      exact h200
    exact checkAccessLoop_first_success_at responses retry_delay k max_retries 0
      hk hfail0 h2000
  · intro hfail
    exact checkAccessLoop_all_fail responses retry_delay hfail max_retries 0
  · exact checkAccessLoop_all_fail (fun _ => HttpAttempt.transportError) retry_delay
      (fun _ hx => HttpAttempt.noConfusion hx) 3 0

/-- C6 witness: a probe failing on the first attempt and answering 200 on
the second returns true after exactly two attempts and one fixed-delay
sleep, and the always-failing probe with three retries makes exactly three
attempts, sleeps twice, and returns false. -/
theorem check_accessibility_retry_contract_witness :
    check_accessibility 3 5
        (fun i => if i = 0 then HttpAttempt.transportError else HttpAttempt.status 200) =
      (true, 2, [5]) ∧
    check_accessibility 3 5 (fun _ => HttpAttempt.transportError) = (false, 3, [5, 5]) := by
  constructor
  · have hfail : ∀ i, i < 1 →
        (fun i => if i = 0 then HttpAttempt.transportError else HttpAttempt.status 200) i ≠
          HttpAttempt.status 200 := by
      intro i hi
      have h0 : i = 0 := by omega
      subst h0
      decide
    have h200 :
        (fun i => if i = 0 then HttpAttempt.transportError else HttpAttempt.status 200) 1 =
          HttpAttempt.status 200 := by decide
    exact (check_accessibility_retry_contract 3 5
      (fun i => if i = 0 then HttpAttempt.transportError else HttpAttempt.status 200)).2.2.2.1
      1 (by norm_num) hfail h200
  · exact (check_accessibility_retry_contract 3 5
      (fun _ => HttpAttempt.transportError)).2.2.2.2.1
      (fun _ hx => HttpAttempt.noConfusion hx)

/-- C8: publish_status runs the MQTT publish first; a serialization failure
raises MQTTPublishError with the not-serializable reason before any channel
is touched, a broker-level failure raises MQTTPublishError with the broker
reason and skips the HTTP fallback, and when the MQTT publish succeeds the
HTTP fallback POST happens exactly when a central API URL is configured,
with every outcome of that POST absorbed, never changing what the caller
sees. -/
theorem publish_status_contract :
    ∀ (url : Option String) (u p : String) (code : Int) (post : HttpAttempt),
      publish_status url SerializeResult.typeError (BrokerResult.rc code) post =
        (Except.error PublishErrorReason.notSerializable, []) ∧
      (code ≠ 0 →
        publish_status url (SerializeResult.ok p) (BrokerResult.rc code) post =
          (Except.error (PublishErrorReason.brokerFailure code),
            [ChannelAction.mqttPublish])) ∧
      (url = some u →
        publish_status url (SerializeResult.ok p) (BrokerResult.rc 0) post =
          (Except.ok (), [ChannelAction.mqttPublish, ChannelAction.httpPost])) ∧
      (url = none →
        publish_status url (SerializeResult.ok p) (BrokerResult.rc 0) post =
          (Except.ok (), [ChannelAction.mqttPublish])) := by
  intro url u p code post
  refine ⟨rfl, ?_, ?_, ?_⟩
  · intro hc
    simp [publish_status, publish_to_mqtt, hc]
  · intro hu
    subst hu
    cases post <;> simp [publish_status, publish_to_mqtt, push_to_http]
  · intro hu
    subst hu
    simp [publish_status, publish_to_mqtt]

/-- C8 witness: with a configured fallback URL and a transport error on the
HTTP POST, a successful MQTT publish still returns normally after
attempting both channels. -/
theorem publish_status_contract_witness :
    publish_status (some "http://api") (SerializeResult.ok "payload")
        (BrokerResult.rc 0) HttpAttempt.transportError =
      (Except.ok (), [ChannelAction.mqttPublish, ChannelAction.httpPost]) :=
  (publish_status_contract (some "http://api") "http://api" "payload" 0
    HttpAttempt.transportError).2.2.1 rfl

/-- C9 counterexample: a 304 Not Modified response (not 2xx, not 404, and
below the 400..599 range for which raise_for_status raises) carrying an
object body makes download_runtime_config return a config, where the claim
says every non-2xx status other than 404 yields absent. -/
theorem download_runtime_config_not_only_2xx :
    download_runtime_config "u1"
        (DownloadResp.response 304 (RespBody.jsonDict [("train_id", "t1")])) =
      some [("train_id", "t1"), ("uuid", "u1")] := by
  rfl

/-- C9 (amended): download_runtime_config never raises; 404 yields absent;
a transport error, an undecodable body, a decoded body that is not an
object, and every status in 400..599 (for which raise_for_status raises
the caught HTTPError) yield absent; any other status, which in practice
includes every 2xx, with an object body yields the config with the uuid
written into it. -/
theorem download_runtime_config_soft_failures :
    ∀ (u : String) (code : Int) (body : RespBody) (d : CfgDict),
      download_runtime_config u DownloadResp.transportError = none ∧
      download_runtime_config u (DownloadResp.response 404 body) = none ∧
      (400 ≤ code → code < 600 →
        download_runtime_config u (DownloadResp.response code body) = none) ∧
      download_runtime_config u (DownloadResp.response code RespBody.invalidJson) = none ∧
      download_runtime_config u (DownloadResp.response code RespBody.jsonOther) = none ∧
      (code ≠ 404 → ¬(400 ≤ code ∧ code < 600) →
        download_runtime_config u (DownloadResp.response code (RespBody.jsonDict d)) =
          some (setKey d "uuid" u)) ∧
      (200 ≤ code → code < 300 →
        download_runtime_config u (DownloadResp.response code (RespBody.jsonDict d)) =
          some (setKey d "uuid" u)) := by
  intro u code body d
  have hok : ∀ (b : RespBody), code ≠ 404 → ¬(400 ≤ code ∧ code < 600) →
      download_runtime_config u (DownloadResp.response code b) =
        match b with
        | RespBody.jsonDict d0 => some (setKey d0 "uuid" u)
        | RespBody.jsonOther => none
        | RespBody.invalidJson => none := by
    intro b h404 hrange
    simp only [download_runtime_config]
    rw [if_neg h404, if_neg hrange]
  have herr : ∀ (b : RespBody),
      400 ≤ code → code < 600 →
      download_runtime_config u (DownloadResp.response code b) = none := by
    intro b h1 h2
    simp only [download_runtime_config]
    by_cases h404 : code = 404
    · rw [if_pos h404]
    · rw [if_neg h404, if_pos ⟨h1, h2⟩]
  have h404case : ∀ (b : RespBody),
      download_runtime_config u (DownloadResp.response 404 b) = none := by
    intro b
    simp [download_runtime_config]
  refine ⟨rfl, h404case body, herr body, ?_, ?_, ?_, ?_⟩
  · by_cases h404 : code = 404
    · subst h404
      exact h404case RespBody.invalidJson
    · by_cases hrange : 400 ≤ code ∧ code < 600
      · exact herr RespBody.invalidJson hrange.1 hrange.2
      · rw [hok RespBody.invalidJson h404 hrange]
  · by_cases h404 : code = 404
    · subst h404
      exact h404case RespBody.jsonOther
    · by_cases hrange : 400 ≤ code ∧ code < 600
      · exact herr RespBody.jsonOther hrange.1 hrange.2
      · rw [hok RespBody.jsonOther h404 hrange]
  · intro h404 hrange
    rw [hok (RespBody.jsonDict d) h404 hrange]
  · intro h1 h2
    have h404 : code ≠ 404 := by omega
    have hrange : ¬(400 ≤ code ∧ code < 600) := by omega
    rw [hok (RespBody.jsonDict d) h404 hrange]

/-- C9 witness: a 404 yields absent and a 200 with an object body yields
the config with the uuid added. -/
theorem download_runtime_config_soft_failures_witness :
    download_runtime_config "u1" (DownloadResp.response 404 RespBody.jsonOther) = none ∧
    download_runtime_config "u1"
        (DownloadResp.response 200 (RespBody.jsonDict [("train_id", "t1")])) =
      some [("train_id", "t1"), ("uuid", "u1")] :=
  ⟨(download_runtime_config_soft_failures "u1" 200 RespBody.jsonOther []).2.1,
   (download_runtime_config_soft_failures "u1" 200 RespBody.jsonOther
      [("train_id", "t1")]).2.2.2.2.2.2 (by norm_num) (by norm_num)⟩
